import Mathlib

/-!
Verification of the scoring / ranking / caching core of the area-recommendation
repository.  The Python sources `src/execution/score_and_rank.py`,
`src/tools/score_areas.py` and `src/tools/cache_manager.py` are shallowly
embedded below: numeric values are modelled by `ℚ`, Python dicts with a fixed
key set by functions into `Option ℚ` or by association lists, and Python's
stable `list.sort(key=..., reverse=True)` by `List.insertionSort` with the
corresponding relation (a stable sort's output is uniquely determined by the
key order and stability, so any stable sort is an exact model).  Python's
`round(x, n)` (round-half-to-even) is modelled on `ℚ` by `roundHalfEven`.
Narrative-only outputs (strength/weakness name lists, trade-off strings) are
not modelled; no verified property concerns them.
-/

/-- The factor names that occur in either scoring module's weight tables. -/
inductive Factor where
  | affordability
  | commute
  | safety
  | amenities
  | schools
  | investment_quality
  | demand_index
  | risk_score
  | infrastructure
  | investment
  deriving DecidableEq, Repr, Inhabited

/-- Enumeration of all factors, in the insertion order used by
`calculate_factor_scores` (the extra factors of `score_areas.py` last). -/
def Factor.all : List Factor :=
  [.affordability, .investment_quality, .demand_index, .risk_score,
   .commute, .safety, .schools, .amenities, .infrastructure, .investment]

instance : Fintype Factor :=
  ⟨⟨{.affordability, .investment_quality, .demand_index, .risk_score,
     .commute, .safety, .schools, .amenities, .infrastructure, .investment}, by decide⟩,
   by intro x; cases x <;> decide⟩

/-- Round to the nearest integer, halves to the even neighbour: the rounding
mode of Python's built-in `round`. -/
def roundHalfEven (x : ℚ) : ℤ :=
  if x - ⌊x⌋ < 1/2 then ⌊x⌋
  else if 1/2 < x - ⌊x⌋ then ⌊x⌋ + 1
  else if ⌊x⌋ % 2 = 0 then ⌊x⌋ else ⌊x⌋ + 1

/-- Python `round(x, 1)`: one decimal place, half to even. -/
def round1 (x : ℚ) : ℚ := (roundHalfEven (x * 10) : ℚ) / 10

/-- Python `round(x, 0)`: to an integer value, half to even. -/
def round0 (x : ℚ) : ℚ := (roundHalfEven x : ℚ)

namespace ScoreAndRank

/-! Embedding of `src/execution/score_and_rank.py`. -/

/-- `scansan` sub-record fields read by `score_and_rank.py` (a Python dict;
each field may be missing). -/
structure ScanSan where
  affordability_score : Option ℚ := none
  investment_quality : Option ℚ := none
  demand_index : Option ℚ := none
  risk_score : Option ℚ := none
  avg_price : Option ℚ := none
  deriving DecidableEq

structure CommuteRec where
  duration_minutes : Option ℚ := none
  deriving DecidableEq

structure CrimeRec where
  safety_score : Option ℚ := none
  deriving DecidableEq

structure SchoolsRec where
  avg_primary_score : Option ℚ := none
  avg_quality_score : Option ℚ := none
  deriving DecidableEq

structure AmenitiesRec where
  density_score : Option ℚ := none
  deriving DecidableEq

structure InfrastructureRec where
  score : Option ℚ := none
  deriving DecidableEq

/-- One area's enrichment data: every sub-record optional. -/
structure AreaRecord where
  scansan : Option ScanSan := none
  commute : Option CommuteRec := none
  crime : Option CrimeRec := none
  schools : Option SchoolsRec := none
  amenities : Option AmenitiesRec := none
  infrastructure : Option InfrastructureRec := none
  deriving DecidableEq

/-- `user_preferences`: optional hard-constraint thresholds and the
`importance_weights` dict (modelled as an association list). -/
structure UserPreferences where
  budget_max : Option ℚ := none
  max_commute_minutes : Option ℚ := none
  min_safety_score : Option ℚ := none
  min_school_rating : Option ℚ := none
  importance_weights : List (Factor × ℚ) := []
  deriving DecidableEq

def studentWeights : Factor → Option ℚ := fun f =>
  match f with
  | .affordability => some 35
  | .commute => some 25
  | .safety => some 15
  | .amenities => some 20
  | .investment_quality => some 5
  | _ => none

def parentWeights : Factor → Option ℚ := fun f =>
  match f with
  | .affordability => some 20
  | .schools => some 30
  | .safety => some 25
  | .commute => some 15
  | .amenities => some 10
  | _ => none

def developerWeights : Factor → Option ℚ := fun f =>
  match f with
  | .investment_quality => some 40
  | .demand_index => some 25
  | .risk_score => some 20
  | .infrastructure => some 15
  | _ => none

/-- `PERSONA_WEIGHTS`: `none` models a persona name absent from the dict. -/
def PERSONA_WEIGHTS : String → Option (Factor → Option ℚ) := fun p =>
  if p = "student" then some studentWeights
  else if p = "parent" then some parentWeights
  else if p = "developer" then some developerWeights
  else none

/-- Sum of the values of a weight map (Python `sum(d.values())`). -/
def weightTotal (w : Factor → Option ℚ) : ℚ :=
  (Factor.all.map fun f => (w f).getD 0).sum

/-- The scaling loop of `calculate_adjusted_weights`:
`adjusted[factor] = base_weight * (importance / 5.0)` with the importance
rating defaulting to 5. -/
def scale_by_importance (base : Factor → Option ℚ) (user_importance : List (Factor × ℚ)) :
    Factor → Option ℚ := fun f =>
  (base f).map fun w => w * (((user_importance.lookup f).getD 5) / 5)

/-- `calculate_adjusted_weights`.  The source receives the persona name and
indexes `PERSONA_WEIGHTS[persona]`; `score_and_rank` calls it only after
validating the persona, so the embedding takes the base weight map directly. -/
def calculate_adjusted_weights (base : Factor → Option ℚ)
    (user_importance : List (Factor × ℚ)) : Factor → Option ℚ :=
  if user_importance.isEmpty then base
  else
    let adjusted := scale_by_importance base user_importance
    let total := weightTotal adjusted
    if 0 < total then (fun f => (adjusted f).map fun v => v / total * 100)
    else adjusted

/-- `calculate_factor_scores`: builds the `scores` dict in insertion order.
A missing sub-record contributes no keys; a present sub-record contributes
its factors with each absent field defaulted to 50. -/
def calculate_factor_scores (area : AreaRecord) : List (Factor × ℚ) :=
  (match area.scansan with
   | some ss =>
     [(.affordability, ss.affordability_score.getD 50),
      (.investment_quality, ss.investment_quality.getD 50),
      (.demand_index, ss.demand_index.getD 50),
      (.risk_score, ss.risk_score.getD 50)]
   | none => [])
  ++ (match area.commute with
      | some c => [(.commute, max 0 (min 100 (100 - c.duration_minutes.getD 60 / 60 * 100)))]
      | none => [])
  ++ (match area.crime with
      | some cr => [(.safety, cr.safety_score.getD 50)]
      | none => [])
  ++ (match area.schools with
      | some s => [(.schools, s.avg_primary_score.getD 50)]
      | none => [])
  ++ (match area.amenities with
      | some a => [(.amenities, a.density_score.getD 50)]
      | none => [])
  ++ (match area.infrastructure with
      | some i => [(.infrastructure, i.score.getD 50)]
      | none => [])

/-- `calculate_composite_score`: iterates over the weight dict; a factor
present in `scores` contributes `score * weight / 100`, a factor absent from
`scores` is recorded with contribution `0.0` and adds nothing. -/
def calculate_composite_score (scores : List (Factor × ℚ)) (weights : Factor → Option ℚ) :
    ℚ × (Factor → Option ℚ) :=
  ((Factor.all.map fun f =>
      match weights f, scores.lookup f with
      | some w, some s => s * w / 100
      | _, _ => 0).sum,
   fun f => (weights f).map fun w =>
      match scores.lookup f with
      | some s => s * w / 100
      | none => 0)

/-- `passes_constraints`: each check applies only when both the preference and
the corresponding sub-record are present; missing numeric fields default to
`float('inf')` for price/duration and `0` for safety/school score. -/
def passes_constraints (area : AreaRecord) (prefs : UserPreferences) : Bool :=
  (match prefs.budget_max, area.scansan with
   | some b, some ss => match ss.avg_price with
     | some p => decide (p ≤ b)
     | none => false
   | _, _ => true)
  && (match prefs.max_commute_minutes, area.commute with
      | some m, some c => match c.duration_minutes with
        | some d => decide (d ≤ m)
        | none => false
      | _, _ => true)
  && (match prefs.min_safety_score, area.crime with
      | some m, some cr => decide (¬ (cr.safety_score.getD 0 < m))
      | _, _ => true)
  && (match prefs.min_school_rating, area.schools with
      | some m, some s => decide (¬ (s.avg_primary_score.getD 0 < m))
      | _, _ => true)

/-- `get_filter_reason` (the two attributed cases, then the generic string). -/
def get_filter_reason (area : AreaRecord) (prefs : UserPreferences) : String :=
  match prefs.budget_max, area.scansan with
  | some b, some ss =>
    if (ss.avg_price.getD 0) > b then "Over budget"
    else
      match prefs.max_commute_minutes, area.commute with
      | some m, some c =>
        if (c.duration_minutes.getD 0) > m then "Commute too long"
        else "Did not meet constraints"
      | _, _ => "Did not meet constraints"
  | _, _ =>
    match prefs.max_commute_minutes, area.commute with
    | some m, some c =>
      if (c.duration_minutes.getD 0) > m then "Commute too long"
      else "Did not meet constraints"
    | _, _ => "Did not meet constraints"

/-- One scored candidate.  The narrative fields (`strengths`, `weaknesses`,
`trade_offs`) of the source dict are not modelled. -/
structure ScoredCandidate where
  area_code : String
  composite_score : ℚ
  factor_scores : List (Factor × ℚ)
  factor_contributions : Factor → Option ℚ
  raw_data : AreaRecord
  rank : ℕ := 0
  deriving DecidableEq

structure FilteredOut where
  area_code : String
  reason : String
  deriving DecidableEq

/-- The candidate dict built inside the scoring loop: the composite is stored
rounded to one decimal, factor scores to integers, contributions to one
decimal. -/
def make_candidate (code : String) (area : AreaRecord) (weights : Factor → Option ℚ) :
    ScoredCandidate :=
  let scores := calculate_factor_scores area
  let cc := calculate_composite_score scores weights
  { area_code := code
    composite_score := round1 cc.1
    factor_scores := scores.map fun p => (p.1, round0 p.2)
    factor_contributions := fun f => (cc.2 f).map round1
    raw_data := area }

/-- The scoring loop over `enrichment_data`: splits the input into scored
candidates and filtered-out records, preserving input order in both. -/
def build_scored (prefs : UserPreferences) (weights : Factor → Option ℚ) :
    List (String × AreaRecord) → List ScoredCandidate × List FilteredOut
  | [] => ([], [])
  | (code, area) :: rest =>
    let r := build_scored prefs weights rest
    if passes_constraints area prefs then
      (make_candidate code area weights :: r.1, r.2)
    else
      (r.1, ⟨code, get_filter_reason area prefs⟩ :: r.2)

/-- Python's stable descending sort by a key
(`list.sort(key=..., reverse=True)`), modelled by the stable
`List.insertionSort` with relation `key b ≤ key a`. -/
def pySortByDesc (key : ScoredCandidate → ℚ) (l : List ScoredCandidate) :
    List ScoredCandidate :=
  List.insertionSort (fun a b => key b ≤ key a) l

/-- The rank-assignment loop `for i, candidate in enumerate(top_candidates)`. -/
def assign_ranks (i : ℕ) : List ScoredCandidate → List ScoredCandidate
  | [] => []
  | c :: cs => { c with rank := i } :: assign_ranks (i + 1) cs

/-- Sort the scored candidates by (stored, rounded) composite score
descending, truncate to `top_n`, and assign ranks `1..`. -/
def rank_candidates (cands : List ScoredCandidate) (top_n : ℕ) : List ScoredCandidate :=
  assign_ranks 1 ((pySortByDesc (fun c => c.composite_score) cands).take top_n)

/-- The output dict of `score_and_rank` (timestamp not modelled). -/
structure ScoreResult where
  persona : String
  adjusted_weights : Factor → Option ℚ
  recommendations : List ScoredCandidate
  filtered_out_count : ℕ
  filtered_out_reasons : List FilteredOut
  deriving DecidableEq

/-- `score_and_rank`: raises `ValueError` (modelled as `Except.error`) on an
unknown persona, otherwise scores, filters, sorts and ranks. -/
def score_and_rank (persona : String) (prefs : UserPreferences)
    (enrichment_data : List (String × AreaRecord)) (top_n : ℕ) :
    Except String ScoreResult :=
  match PERSONA_WEIGHTS persona with
  | none => .error ("Invalid persona: " ++ persona)
  | some base =>
    let w := calculate_adjusted_weights base prefs.importance_weights
    let sf := build_scored prefs w enrichment_data
    .ok { persona := persona
          adjusted_weights := w
          recommendations := rank_candidates sf.1 top_n
          filtered_out_count := sf.2.length
          filtered_out_reasons := sf.2.take 5 }

end ScoreAndRank

namespace ScoreAreas

/-! Embedding of `src/tools/score_areas.py`.  Its weight tables sum to 1.0 and
it reads every sub-record through `dict.get(..., {})`, so each of its six
factors always receives a score (defaulting to the neutral 50). -/

open ScoreAndRank (AreaRecord)

def studentWeights : Factor → Option ℚ := fun f =>
  match f with
  | .affordability => some (35/100)
  | .commute => some (25/100)
  | .safety => some (15/100)
  | .amenities => some (15/100)
  | .schools => some 0
  | .investment => some (10/100)
  | _ => none

def parentWeights : Factor → Option ℚ := fun f =>
  match f with
  | .affordability => some (20/100)
  | .commute => some (15/100)
  | .safety => some (25/100)
  | .amenities => some (10/100)
  | .schools => some (30/100)
  | .investment => some 0
  | _ => none

def developerWeights : Factor → Option ℚ := fun f =>
  match f with
  | .affordability => some (10/100)
  | .commute => some (5/100)
  | .safety => some (10/100)
  | .amenities => some (15/100)
  | .schools => some (20/100)
  | .investment => some (40/100)
  | _ => none

def PERSONA_WEIGHTS : String → Option (Factor → Option ℚ) := fun p =>
  if p = "student" then some studentWeights
  else if p = "parent" then some parentWeights
  else if p = "developer" then some developerWeights
  else none

/-- The user-weight adjustment loop of `calculate_composite_score`:
`weights[factor] *= 0.5 + user_weight / 10` for every rated factor already in
the weight dict. -/
def apply_user_weights (weights : Factor → Option ℚ) (user_weights : List (Factor × ℚ)) :
    Factor → Option ℚ := fun f =>
  (weights f).map fun w =>
    match user_weights.lookup f with
    | some r => w * (1/2 + r / 10)
    | none => w

def weightTotal (w : Factor → Option ℚ) : ℚ :=
  (Factor.all.map fun f => (w f).getD 0).sum

/-- Renormalization to total 1.0 (guarded by `total > 0`). -/
def normalize_weights (w : Factor → Option ℚ) : Factor → Option ℚ :=
  if 0 < weightTotal w then (fun f => (w f).map fun v => v / weightTotal w) else w

/-- The factor-score extraction of `score_areas.py`: every sub-record is read
through `.get(..., {})`, so all six factors are always present, each field
defaulting to 50 (commute duration defaulting to 30 minutes). -/
def factor_scores (d : AreaRecord) : Factor → Option ℚ := fun f =>
  match f with
  | .affordability => some ((d.scansan.bind (·.affordability_score)).getD 50)
  | .commute => some (100 - min 100 ((d.commute.bind (·.duration_minutes)).getD 30 / 60 * 100))
  | .safety => some ((d.crime.bind (·.safety_score)).getD 50)
  | .amenities => some ((d.amenities.bind (·.density_score)).getD 50)
  | .schools => some ((d.schools.bind (·.avg_quality_score)).getD 50)
  | .investment => some ((d.scansan.bind (·.investment_quality)).getD 50)
  | _ => none

/-- Output of `score_areas.calculate_composite_score` (the narrative
strength/weakness lists are not modelled). -/
structure SAResult where
  composite_score : ℚ
  factor_scores : Factor → Option ℚ
  weights_applied : Factor → Option ℚ
  contributions : Factor → Option ℚ
  deriving DecidableEq

/-- `score_areas.calculate_composite_score`.  Note the unknown-persona
behaviour: `PERSONA_WEIGHTS.get(persona, PERSONA_WEIGHTS["student"])` silently
falls back to the student profile. -/
def calculate_composite_score (enrichment_data : AreaRecord) (persona : String)
    (user_weights : List (Factor × ℚ)) : SAResult :=
  let weights0 := (PERSONA_WEIGHTS persona).getD studentWeights
  let weights :=
    if user_weights.isEmpty then weights0
    else normalize_weights (apply_user_weights weights0 user_weights)
  let fs := factor_scores enrichment_data
  { composite_score :=
      round1 ((Factor.all.map fun f =>
        match weights f, fs f with
        | some w, some s => s * w
        | _, _ => 0).sum)
    factor_scores := fs
    weights_applied := weights
    contributions := fun f => match fs f, weights f with
      | some s, some w => some (s * w)
      | _, _ => none }

end ScoreAreas

namespace CacheManager

/-! Embedding of `src/tools/cache_manager.py`.  The filesystem is modelled as
a map from file names to cache files; wall-clock instants are rationals
counting seconds.  `float('inf')` in the TTL table is modelled by the
`TTL.never` constructor.  When the applicable TTL is infinite, the source
executes `timedelta(hours=float('inf'))`, which raises `OverflowError`; the
surrounding handler catches only `json.JSONDecodeError` and `IOError`, so the
exception escapes to the caller.  `read_cache` therefore returns
`Except String (Option α)`: `Except.error` models that uncaught exception,
`Except.ok none` a miss, `Except.ok (some d)` a hit.  `IOError` on write is
not modelled: `write` always succeeds. -/

/-- A per-category time-to-live: a finite number of hours, or never expiring. -/
inductive TTL where
  | finite (hours : ℚ)
  | never
  deriving DecidableEq

/-- The fixed `CACHE_VALIDITY` table (hours). -/
def CACHE_VALIDITY : String → Option TTL := fun c =>
  if c = "scansan_property" then some (.finite 24)
  else if c = "scansan_trends" then some (.finite 168)
  else if c = "tfl_commute" then some (.finite 168)
  else if c = "crime" then some (.finite 720)
  else if c = "schools" then some (.finite 2160)
  else if c = "amenities" then some (.finite 720)
  else if c = "video_url" then some .never
  else none

/-- Key sanitization of `get_cache_path`. -/
def sanitize_key (k : String) : String :=
  ((k.replace "/" "_").replace "\\" "_").replace " " "_"

/-- `get_cache_path`: the cache file name for a (category, key) pair. -/
def get_cache_path (cache_type key : String) : String :=
  cache_type ++ "_" ++ sanitize_key key ++ ".json"

/-- The JSON object written by `write_cache`; `cache_timestamp = none` models
a file whose `_cache_timestamp` field is missing. -/
structure CacheFile (α : Type) where
  cache_timestamp : Option ℚ
  cache_type : String
  cache_key : String
  data : α

/-- The cache directory: file name ↦ file contents. -/
def Store (α : Type) : Type := String → Option (CacheFile α)

def emptyStore {α : Type} : Store α := fun _ => none

/-- The TTL applicable to a read: an explicit `max_age_hours` argument
overrides the category default, which itself defaults to 24 hours for a
category absent from the table. -/
def applicable_ttl (max_age_hours : Option ℚ) (cache_type : String) : TTL :=
  match max_age_hours with
  | some h => .finite h
  | none => (CACHE_VALIDITY cache_type).getD (.finite 24)

/-- `read_cache`: miss when the file is absent, when its timestamp field is
missing, or when its age exceeds the applicable TTL.  When the applicable TTL
is infinite (category `"video_url"`), `timedelta(hours=float('inf'))` at
`cache_manager.py:83` raises an uncaught `OverflowError` before any freshness
comparison, modelled by the `Except.error` branch. -/
def read_cache {α : Type} (store : Store α) (now : ℚ) (cache_type key : String)
    (max_age_hours : Option ℚ) : Except String (Option α) :=
  match store (get_cache_path cache_type key) with
  | none => .ok none
  | some file =>
    match file.cache_timestamp with
    | none => .ok none
    | some t =>
      match applicable_ttl max_age_hours cache_type with
      | .never => .error "OverflowError"
      | .finite h =>
        if now - t > h * 3600 then .ok none else .ok (some file.data)

/-- `write_cache`: whole-entry overwrite at the derived path, stamping the
current time; returns the new store and the success flag. -/
def write_cache {α : Type} (store : Store α) (now : ℚ) (cache_type key : String)
    (d : α) : Store α × Bool :=
  (fun p =>
    if p = get_cache_path cache_type key then
      some { cache_timestamp := some now, cache_type := cache_type,
             cache_key := key, data := d }
    else store p,
   true)

end CacheManager

/-! Concrete inputs used by counterexamples and witnesses. -/

namespace Demo

open ScoreAndRank

/-- An area record with no sub-records at all. -/
def emptyArea : AreaRecord := {}

/-- Preferences with no constraints and no importance ratings. -/
def noPrefs : UserPreferences := {}

/-- Property data whose student composite is `142.8*35/100 + 50*5/100 = 52.48`,
which rounds to `52.5`. -/
def areaLow : AreaRecord :=
  { scansan := some { affordability_score := some (1428/10) } }

/-- Property data whose student composite is `142.9*35/100 + 50*5/100 = 52.515`,
which also rounds to `52.5` — unrounded it beats `areaLow`. -/
def areaHigh : AreaRecord :=
  { scansan := some { affordability_score := some (1429/10) } }

/-- Importance ratings of 0 for every weighted student factor. -/
def allZeroImportance : List (Factor × ℚ) :=
  [(.affordability, 0), (.commute, 0), (.safety, 0), (.amenities, 0),
   (.investment_quality, 0)]

/-- An empty list of factor scores (no sub-record present). -/
def noScores : List (Factor × ℚ) := []

/-- A bare scored candidate with composite score 2 (for concrete rankings). -/
def demoCand1 : ScoredCandidate :=
  { area_code := "X", composite_score := 2, factor_scores := [],
    factor_contributions := fun _ => none, raw_data := {}, rank := 0 }

/-- A bare scored candidate with composite score 1. -/
def demoCand2 : ScoredCandidate :=
  { area_code := "Y", composite_score := 1, factor_scores := [],
    factor_contributions := fun _ => none, raw_data := {}, rank := 0 }

/-- The result of scoring two unconstrained empty areas with `top_n = 5`. -/
def resAB : ScoreResult :=
  { persona := "student"
    adjusted_weights := studentWeights
    recommendations := rank_candidates
      [make_candidate "A" emptyArea studentWeights,
       make_candidate "B" emptyArea studentWeights] 5
    filtered_out_count := 0
    filtered_out_reasons := [] }

/-- The first recommendation inside `resAB`. -/
def recA : ScoredCandidate :=
  { make_candidate "A" emptyArea studentWeights with rank := 1 }

end Demo

/-! ## Theorems -/

/-- C7 (code bug): a successful write of a `"video_url"` entry followed
immediately by a read of the same (category, key) does NOT return the payload
written — the category's TTL is `float('inf')`, so the read raises an
uncaught `OverflowError` from `timedelta(hours=float('inf'))` at
`cache_manager.py:83` instead of hitting, contradicting the claim and the
table's own never-expire intent. -/
theorem cache_video_url_read_raises :
    (CacheManager.write_cache (CacheManager.emptyStore : CacheManager.Store ℕ)
        0 "video_url" "v1" 42).2 = true
  ∧ CacheManager.read_cache
      (CacheManager.write_cache (CacheManager.emptyStore : CacheManager.Store ℕ)
        0 "video_url" "v1" 42).1 0 "video_url" "v1" none = .error "OverflowError"
  ∧ (Except.error "OverflowError" : Except String (Option ℕ)) ≠ .ok (some 42) := by
  refine ⟨rfl, ?_, by simp⟩
  simp [CacheManager.read_cache, CacheManager.write_cache,
    CacheManager.applicable_ttl, CacheManager.CACHE_VALIDITY]

/-- C8: an entry written at time `T` whose applicable TTL (explicit
`max_age_hours` override, else the category's table entry, else 24h) is a
finite `h` hours reads back fresh whenever its age is at most `h` hours and
as a miss whenever its age exceeds `h` hours. -/
theorem cache_ttl_boundary {α : Type} (store : CacheManager.Store α)
    (T now : ℚ) (cache_type key : String) (d : α) (ma : Option ℚ) (h : ℚ)
    (happ : CacheManager.applicable_ttl ma cache_type = .finite h) :
    (now - T ≤ h * 3600 →
      CacheManager.read_cache (CacheManager.write_cache store T cache_type key d).1
        now cache_type key ma = .ok (some d)) ∧
    (h * 3600 < now - T →
      CacheManager.read_cache (CacheManager.write_cache store T cache_type key d).1
        now cache_type key ma = .ok none) := by
  constructor <;> intro hage <;>
    simp [CacheManager.read_cache, CacheManager.write_cache, happ] <;> linarith

/-- Witness for C8: category `"crime"` (TTL 720h); fresh one second before
the boundary, a miss one second after. -/
theorem cache_ttl_boundary_witness :
    CacheManager.read_cache
      (CacheManager.write_cache (CacheManager.emptyStore : CacheManager.Store ℕ)
        0 "crime" "SW1A" 42).1 (720 * 3600 - 1) "crime" "SW1A" none = .ok (some 42) ∧
    CacheManager.read_cache
      (CacheManager.write_cache (CacheManager.emptyStore : CacheManager.Store ℕ)
        0 "crime" "SW1A" 42).1 (720 * 3600 + 1) "crime" "SW1A" none = .ok none := by
  have happ : CacheManager.applicable_ttl none "crime" = .finite 720 := by
    simp [CacheManager.applicable_ttl, CacheManager.CACHE_VALIDITY]
  exact ⟨(cache_ttl_boundary CacheManager.emptyStore 0 (720 * 3600 - 1) "crime" "SW1A"
            42 none 720 happ).1 (by norm_num),
         (cache_ttl_boundary CacheManager.emptyStore 0 (720 * 3600 + 1) "crime" "SW1A"
            42 none 720 happ).2 (by norm_num)⟩

/-- `List.lookup` distributes over append, preferring the first list. -/
theorem lookup_append {α β : Type} [BEq α] (l₁ l₂ : List (α × β)) (a : α) :
    (l₁ ++ l₂).lookup a = ((l₁.lookup a).or (l₂.lookup a)) := by
  induction l₁ with
  | nil => simp [List.lookup]
  | cons p rest ih =>
    rw [List.cons_append]
    rcases p with ⟨k, v⟩
    rw [List.lookup_cons, List.lookup_cons]
    cases h : a == k
    · simpa [h] using ih
    · simp [h]

/-- Boolean equality on `Factor` is propositional equality, decided. -/
theorem factor_beq_eq_decide (a b : Factor) : (a == b) = decide (a = b) := rfl

/-- C10: whenever the `scansan` sub-record is present, `calculate_factor_scores`
defines all four property-intelligence factors, defaulting each individually
missing field to 50; when the sub-record is absent those factors are absent
(the `Option.map` form states both directions at once). -/
theorem factor_scores_scansan_field_defaults (area : ScoreAndRank.AreaRecord) :
    (ScoreAndRank.calculate_factor_scores area).lookup Factor.affordability
      = area.scansan.map (fun ss => ss.affordability_score.getD 50)
  ∧ (ScoreAndRank.calculate_factor_scores area).lookup Factor.investment_quality
      = area.scansan.map (fun ss => ss.investment_quality.getD 50)
  ∧ (ScoreAndRank.calculate_factor_scores area).lookup Factor.demand_index
      = area.scansan.map (fun ss => ss.demand_index.getD 50)
  ∧ (ScoreAndRank.calculate_factor_scores area).lookup Factor.risk_score
      = area.scansan.map (fun ss => ss.risk_score.getD 50) := by
  obtain ⟨ss, co, cr, sc, am, ir⟩ := area
  cases ss <;> cases co <;> cases cr <;> cases sc <;> cases am <;> cases ir <;>
    simp [ScoreAndRank.calculate_factor_scores, List.lookup, factor_beq_eq_decide]

/-- C1 counterexample: with the developer weights and an empty score dict
(no sub-record present), the weighted factor `infrastructure` contributes
`0.0` — not the claimed `50 * 15 / 100 = 7.5` — and the composite is 0. -/
theorem composite_scorer_missing_factor_zero_counterexample :
    (ScoreAndRank.calculate_composite_score Demo.noScores ScoreAndRank.developerWeights).2
      Factor.infrastructure = some 0
  ∧ (ScoreAndRank.calculate_composite_score Demo.noScores ScoreAndRank.developerWeights).1 = 0
  ∧ (50 : ℚ) * 15 / 100 ≠ 0 := by
  refine ⟨?_, ?_, by norm_num⟩
  · simp [ScoreAndRank.calculate_composite_score, Demo.noScores, List.lookup,
      ScoreAndRank.developerWeights]
  · norm_num [ScoreAndRank.calculate_composite_score, Demo.noScores, List.lookup,
      Factor.all, ScoreAndRank.developerWeights]

/-- C1 amended: a factor that carries a weight but has no score is recorded
with contribution `0.0` and adds nothing to the composite (dropping its weight
leaves the composite unchanged); the composite equals the sum of the recorded
contributions. -/
theorem composite_scorer_missing_factor_contributes_zero
    (scores : List (Factor × ℚ)) (weights : Factor → Option ℚ) (f : Factor) (w : ℚ)
    (hw : weights f = some w) (hs : scores.lookup f = none) :
    (ScoreAndRank.calculate_composite_score scores weights).2 f = some 0
  ∧ (ScoreAndRank.calculate_composite_score scores weights).1 =
      (ScoreAndRank.calculate_composite_score scores
        (fun g => if g = f then none else weights g)).1
  ∧ (ScoreAndRank.calculate_composite_score scores weights).1 =
      (Factor.all.map fun g =>
        ((ScoreAndRank.calculate_composite_score scores weights).2 g).getD 0).sum := by
  refine ⟨by simp [ScoreAndRank.calculate_composite_score, hw, hs], ?_, ?_⟩
  · simp only [ScoreAndRank.calculate_composite_score]
    congr 1
    apply List.map_congr_left
    intro g _
    by_cases hg : g = f
    · subst hg; simp [hw, hs]
    · simp [hg]
  · simp only [ScoreAndRank.calculate_composite_score]
    congr 1
    apply List.map_congr_left
    intro g _
    cases hWg : weights g <;> cases hSg : scores.lookup g <;> simp [hWg, hSg]

/-- Witness for the amended C1, at the developer weights with no scores. -/
theorem composite_scorer_missing_factor_contributes_zero_witness :
    (ScoreAndRank.calculate_composite_score Demo.noScores ScoreAndRank.developerWeights).2
      Factor.infrastructure = some 0
  ∧ (ScoreAndRank.calculate_composite_score Demo.noScores ScoreAndRank.developerWeights).1 =
      (ScoreAndRank.calculate_composite_score Demo.noScores
        (fun g => if g = Factor.infrastructure then none
                  else ScoreAndRank.developerWeights g)).1
  ∧ (ScoreAndRank.calculate_composite_score Demo.noScores ScoreAndRank.developerWeights).1 =
      (Factor.all.map fun g =>
        ((ScoreAndRank.calculate_composite_score Demo.noScores
            ScoreAndRank.developerWeights).2 g).getD 0).sum :=
  composite_scorer_missing_factor_contributes_zero Demo.noScores
    ScoreAndRank.developerWeights Factor.infrastructure 15 rfl rfl

/-- C2 counterexample: in `calculate_adjusted_weights` an importance rating of
0 on the student base weight 35 gives pre-normalization weight 0, not the
claimed `35 * (0.5 + 0/10) = 17.5`. -/
theorem weight_resolver_rating_zero_counterexample :
    ScoreAndRank.scale_by_importance ScoreAndRank.studentWeights
      [(Factor.affordability, 0)] Factor.affordability = some 0
  ∧ (35 : ℚ) * (1/2 + 0/10) ≠ 0 := by
  constructor
  · norm_num [ScoreAndRank.scale_by_importance, ScoreAndRank.studentWeights,
      List.lookup, factor_beq_eq_decide]
  · norm_num

/-- C2 amended: `score_and_rank.calculate_adjusted_weights` scales a rated
factor's base weight by `r / 5` (rating 0 zeroes it, 5 keeps it, 10 doubles
it); the claimed `0.5 + r/10` multiplier is used only by the user-weight loop
of `score_areas.calculate_composite_score`. -/
theorem weight_resolver_prenorm_formula
    (base : Factor → Option ℚ) (ui : List (Factor × ℚ)) (f : Factor) (w r : ℚ)
    (hb : base f = some w) (hr : ui.lookup f = some r) :
    ScoreAndRank.scale_by_importance base ui f = some (w * (r / 5))
  ∧ ScoreAreas.apply_user_weights base ui f = some (w * (1/2 + r / 10)) := by
  constructor
  · simp [ScoreAndRank.scale_by_importance, hb, hr]
  · simp [ScoreAreas.apply_user_weights, hb, hr]

/-- Witness for the amended C2: student affordability (base 35) rated 10 maps
to `35 * 2 = 70` pre-normalization in `score_and_rank`, and to `35 * 1.5`
under the `score_areas` rule. -/
theorem weight_resolver_prenorm_formula_witness :
    ScoreAndRank.scale_by_importance ScoreAndRank.studentWeights
      [(Factor.affordability, 10)] Factor.affordability = some (35 * (10 / 5))
  ∧ ScoreAreas.apply_user_weights ScoreAndRank.studentWeights
      [(Factor.affordability, 10)] Factor.affordability = some (35 * (1/2 + 10 / 10)) :=
  weight_resolver_prenorm_formula ScoreAndRank.studentWeights
    [(Factor.affordability, 10)] Factor.affordability 35 10 rfl rfl

/-- C3 counterexample: rating every weighted student factor 0 drives the
scaled total to 0; `calculate_adjusted_weights` then returns the all-zero
scaled map — its values sum to 0, not 100, and it is not the base map
(whose `affordability` is 35). -/
theorem adjusted_weights_zero_total_counterexample :
    ScoreAndRank.weightTotal
      (ScoreAndRank.calculate_adjusted_weights ScoreAndRank.studentWeights
        Demo.allZeroImportance) = 0
  ∧ ScoreAndRank.calculate_adjusted_weights ScoreAndRank.studentWeights
      Demo.allZeroImportance Factor.affordability = some 0
  ∧ ScoreAndRank.studentWeights Factor.affordability = some 35 := by
  have la : Demo.allZeroImportance.lookup Factor.affordability = some 0 := rfl
  have lc : Demo.allZeroImportance.lookup Factor.commute = some 0 := rfl
  have ls : Demo.allZeroImportance.lookup Factor.safety = some 0 := rfl
  have lm : Demo.allZeroImportance.lookup Factor.amenities = some 0 := rfl
  have li : Demo.allZeroImportance.lookup Factor.investment_quality = some 0 := rfl
  have lemp : Demo.allZeroImportance.isEmpty = false := rfl
  refine ⟨?_, ?_, rfl⟩ <;>
    norm_num [ScoreAndRank.calculate_adjusted_weights, ScoreAndRank.scale_by_importance,
      ScoreAndRank.weightTotal, Factor.all, ScoreAndRank.studentWeights,
      la, lc, ls, lm, li, lemp]

/-- C3 amended: for every persona in the table, the resolved weight map sums
to exactly 100 whenever the importance dict is empty or the scaled total is
positive (the zero-total guard instead returns the all-zero scaled map). -/
theorem adjusted_weights_sum_100
    (p : String) (base : Factor → Option ℚ) (ui : List (Factor × ℚ))
    (hp : ScoreAndRank.PERSONA_WEIGHTS p = some base)
    (h : ui.isEmpty = true ∨
      0 < ScoreAndRank.weightTotal (ScoreAndRank.scale_by_importance base ui)) :
    ScoreAndRank.weightTotal (ScoreAndRank.calculate_adjusted_weights base ui) = 100 := by
  have hbase : ScoreAndRank.weightTotal base = 100 := by
    simp only [ScoreAndRank.PERSONA_WEIGHTS] at hp
    split_ifs at hp <;> cases hp <;>
      norm_num [ScoreAndRank.weightTotal, Factor.all, ScoreAndRank.studentWeights,
        ScoreAndRank.parentWeights, ScoreAndRank.developerWeights]
  by_cases he : ui.isEmpty
  · simpa [ScoreAndRank.calculate_adjusted_weights, he] using hbase
  · have hpos : 0 < ScoreAndRank.weightTotal (ScoreAndRank.scale_by_importance base ui) := by
      rcases h with h | h
      · exact absurd h (by simp [he])
      · exact h
    set A := ScoreAndRank.scale_by_importance base ui with hA
    set T := ScoreAndRank.weightTotal A with hT
    have hstep : ScoreAndRank.calculate_adjusted_weights base ui =
        fun f => (A f).map fun v => v / T * 100 := by
      simp [ScoreAndRank.calculate_adjusted_weights, he, ← hA, ← hT, hpos]
    rw [hstep]
    have h1 : ScoreAndRank.weightTotal (fun f => (A f).map fun v => v / T * 100) =
        (Factor.all.map fun f => (A f).getD 0 * (100 / T)).sum := by
      unfold ScoreAndRank.weightTotal
      congr 1
      apply List.map_congr_left
      intro g _
      cases hg : A g <;> simp [hg] <;> ring
    rw [h1, List.sum_map_mul_right]
    have hTsum : (Factor.all.map fun f => (A f).getD 0).sum = T := rfl
    rw [hTsum]
    field_simp

/-- Witness for the amended C3: the student base with affordability rated 10
(total positive) resolves to weights summing to exactly 100. -/
theorem adjusted_weights_sum_100_witness :
    ScoreAndRank.weightTotal
      (ScoreAndRank.calculate_adjusted_weights ScoreAndRank.studentWeights
        [(Factor.affordability, 10)]) = 100 :=
  adjusted_weights_sum_100 "student" ScoreAndRank.studentWeights
    [(Factor.affordability, 10)] rfl
    (Or.inr (by
      have la : ([(Factor.affordability, (10 : ℚ))]).lookup Factor.affordability
          = some 10 := rfl
      have lc : ([(Factor.affordability, (10 : ℚ))]).lookup Factor.commute = none := rfl
      have ls : ([(Factor.affordability, (10 : ℚ))]).lookup Factor.safety = none := rfl
      have lm : ([(Factor.affordability, (10 : ℚ))]).lookup Factor.amenities = none := rfl
      have li : ([(Factor.affordability, (10 : ℚ))]).lookup Factor.investment_quality
          = none := rfl
      norm_num [ScoreAndRank.weightTotal, ScoreAndRank.scale_by_importance, Factor.all,
        ScoreAndRank.studentWeights, la, lc, ls, lm, li]))

/-- The stable descending sort is a permutation of its input. -/
theorem pySortByDesc_perm (key : ScoreAndRank.ScoredCandidate → ℚ)
    (l : List ScoreAndRank.ScoredCandidate) :
    List.Perm (ScoreAndRank.pySortByDesc key l) l :=
  List.perm_insertionSort _ l

/-- The stable descending sort yields keys in weakly decreasing order. -/
theorem pySortByDesc_sorted (key : ScoreAndRank.ScoredCandidate → ℚ)
    (l : List ScoreAndRank.ScoredCandidate) :
    (ScoreAndRank.pySortByDesc key l).Pairwise (fun a b => key b ≤ key a) := by
  haveI : IsTotal ScoreAndRank.ScoredCandidate (fun a b => key b ≤ key a) :=
    ⟨fun a b => le_total (key b) (key a)⟩
  haveI : IsTrans ScoreAndRank.ScoredCandidate (fun a b => key b ≤ key a) :=
    ⟨fun _ _ _ h1 h2 => le_trans h2 h1⟩
  exact List.sorted_insertionSort _ l

/-- Stability of the descending sort: the candidates carrying any fixed key
value appear in the output in exactly their input order. -/
theorem pySortByDesc_filter_eq (key : ScoreAndRank.ScoredCandidate → ℚ) (q : ℚ)
    (l : List ScoreAndRank.ScoredCandidate) :
    (ScoreAndRank.pySortByDesc key l).filter (fun c => decide (key c = q)) =
      l.filter (fun c => decide (key c = q)) := by
  have hsub : List.Sublist (l.filter (fun c => decide (key c = q)))
      (ScoreAndRank.pySortByDesc key l) := by
    apply List.sublist_insertionSort
    · apply List.pairwise_of_forall_mem_list
      intro a ha b hb
      have ha' := List.of_mem_filter ha
      have hb' := List.of_mem_filter hb
      simp only [decide_eq_true_eq] at ha' hb'
      rw [ha', hb']
    · exact List.filter_sublist l
  have hsub2 : List.Sublist (l.filter (fun c => decide (key c = q)))
      ((ScoreAndRank.pySortByDesc key l).filter (fun c => decide (key c = q))) := by
    have h2 := List.Sublist.filter (fun c => decide (key c = q)) hsub
    rw [List.filter_filter] at h2
    simpa only [Bool.and_self] using h2
  have hlen : (l.filter (fun c => decide (key c = q))).length =
      ((ScoreAndRank.pySortByDesc key l).filter (fun c => decide (key c = q))).length :=
    ((pySortByDesc_perm key l).filter _).length_eq.symm
  exact (hsub2.eq_of_length hlen).symm

/-- `assign_ranks` preserves length. -/
theorem assign_ranks_length (i : ℕ) (l : List ScoreAndRank.ScoredCandidate) :
    (ScoreAndRank.assign_ranks i l).length = l.length := by
  induction l generalizing i with
  | nil => rfl
  | cons c cs ih => simp [ScoreAndRank.assign_ranks, ih]

/-- The rank fields produced by `assign_ranks` are consecutive from `i`. -/
theorem assign_ranks_map_rank (i : ℕ) (l : List ScoreAndRank.ScoredCandidate) :
    (ScoreAndRank.assign_ranks i l).map (fun c => c.rank) = List.range' i l.length := by
  induction l generalizing i with
  | nil => rfl
  | cons c cs ih => simp [ScoreAndRank.assign_ranks, List.range'_succ, ih]

/-- Members of `assign_ranks i l` carry a rank at least `i` and differ from a
member of `l` only in the rank field. -/
theorem mem_assign_ranks {b : ScoreAndRank.ScoredCandidate} :
    ∀ {i : ℕ} {l : List ScoreAndRank.ScoredCandidate},
      b ∈ ScoreAndRank.assign_ranks i l →
      i ≤ b.rank ∧ ∃ a ∈ l, b = { a with rank := b.rank } := by
  intro i l
  induction l generalizing i with
  | nil => intro hb; simp [ScoreAndRank.assign_ranks] at hb
  | cons c cs ih =>
    intro hb
    rcases List.mem_cons.mp hb with h | h
    · subst h
      exact ⟨le_refl _, c, List.mem_cons_self c cs, rfl⟩
    · obtain ⟨hle, a, ha, heq⟩ := ih h
      exact ⟨le_trans (Nat.le_succ i) hle, a, List.mem_cons_of_mem _ ha, heq⟩

/-- `assign_ranks` turns a score-sorted list into a list that is pairwise
ordered both by rank and by score. -/
theorem assign_ranks_pairwise {l : List ScoreAndRank.ScoredCandidate}
    (S : ℚ → ℚ → Prop)
    (h : l.Pairwise fun a b => S a.composite_score b.composite_score) (i : ℕ) :
    (ScoreAndRank.assign_ranks i l).Pairwise
      (fun a b => a.rank < b.rank ∧ S a.composite_score b.composite_score) := by
  induction l generalizing i with
  | nil => exact List.Pairwise.nil
  | cons c cs ih =>
    rw [List.pairwise_cons] at h
    refine List.Pairwise.cons ?_ (ih h.2 (i + 1))
    intro b hb
    obtain ⟨hle, a, ha, heq⟩ := mem_assign_ranks hb
    have hsc : b.composite_score = a.composite_score := by rw [heq]
    constructor
    · exact lt_of_lt_of_le (Nat.lt_succ_self i) hle
    · rw [show ({ c with rank := i } : ScoreAndRank.ScoredCandidate).composite_score
        = c.composite_score from rfl, hsc]
      exact h.1 a ha

/-- The scoring loop is a filter-and-map over the input: the scored candidates
are exactly the areas passing the constraints, in order, and the filtered-out
records are exactly the failing areas, in order. -/
theorem build_scored_eq (prefs : ScoreAndRank.UserPreferences)
    (w : Factor → Option ℚ) (l : List (String × ScoreAndRank.AreaRecord)) :
    (ScoreAndRank.build_scored prefs w l).1 =
      (l.filter fun p => ScoreAndRank.passes_constraints p.2 prefs).map
        (fun p => ScoreAndRank.make_candidate p.1 p.2 w)
  ∧ (ScoreAndRank.build_scored prefs w l).2 =
      (l.filter fun p => !ScoreAndRank.passes_constraints p.2 prefs).map
        (fun p => ⟨p.1, ScoreAndRank.get_filter_reason p.2 prefs⟩) := by
  induction l with
  | nil => exact ⟨rfl, rfl⟩
  | cons p rest ih =>
    rcases p with ⟨code, area⟩
    by_cases hp : ScoreAndRank.passes_constraints area prefs <;>
      simp [ScoreAndRank.build_scored, hp, ih.1, ih.2, List.filter_cons]

/-- Splitting a list by a boolean predicate preserves total length. -/
theorem length_filter_bool_split {α : Type} (p : α → Bool) (l : List α) :
    (l.filter p).length + (l.filter fun a => !p a).length = l.length := by
  induction l with
  | nil => rfl
  | cons a rest ih =>
    by_cases h : p a <;> simp [List.filter_cons, h] <;> omega

/-- The ranked output has `min top_n (number scored)` entries. -/
theorem rank_candidates_length (cands : List ScoreAndRank.ScoredCandidate) (n : ℕ) :
    (ScoreAndRank.rank_candidates cands n).length = min n cands.length := by
  rw [ScoreAndRank.rank_candidates, assign_ranks_length, List.length_take]
  simp [ScoreAndRank.pySortByDesc]

/-- C6: ranking is monotonic and stable — ranks run 1..N over the output, a
strictly higher composite score always receives a strictly smaller rank, and
candidates with equal composite scores keep their original relative order
through the sort (no secondary tie-break key). -/
theorem ranking_monotonic_stable (cands : List ScoreAndRank.ScoredCandidate)
    (n : ℕ) (q : ℚ) (a b : ScoreAndRank.ScoredCandidate)
    (ha : a ∈ ScoreAndRank.rank_candidates cands n)
    (hb : b ∈ ScoreAndRank.rank_candidates cands n)
    (hab : b.composite_score < a.composite_score) :
    a.rank < b.rank
  ∧ (ScoreAndRank.rank_candidates cands n).map (fun c => c.rank) =
      List.range' 1 (ScoreAndRank.rank_candidates cands n).length
  ∧ (ScoreAndRank.pySortByDesc (fun c => c.composite_score) cands).filter
      (fun c => decide (c.composite_score = q)) =
      cands.filter (fun c => decide (c.composite_score = q)) := by
  refine ⟨?_, ?_, pySortByDesc_filter_eq _ q cands⟩
  · have hs : ((ScoreAndRank.pySortByDesc (fun c => c.composite_score) cands).take n).Pairwise
        (fun x y => y.composite_score ≤ x.composite_score) :=
      List.Pairwise.sublist (List.take_sublist n _)
        (pySortByDesc_sorted (fun c => c.composite_score) cands)
    have hP := assign_ranks_pairwise (fun x y => y ≤ x) hs 1
    set R : ScoreAndRank.ScoredCandidate → ScoreAndRank.ScoredCandidate → Prop :=
      fun x y => (y.composite_score < x.composite_score → x.rank < y.rank)
               ∧ (x.composite_score < y.composite_score → y.rank < x.rank) with hRdef
    have hR : (ScoreAndRank.rank_candidates cands n).Pairwise R := by
      rw [ScoreAndRank.rank_candidates]
      exact hP.imp (fun h => ⟨fun _ => h.1, fun hc => absurd hc (not_lt.mpr h.2)⟩)
    have hsymm : Symmetric R := fun x y h => ⟨h.2, h.1⟩
    have hne : a ≠ b := by
      intro he
      rw [he] at hab
      exact lt_irrefl _ hab
    exact (List.Pairwise.forall hsymm hR ha hb hne).1 hab
  · rw [ScoreAndRank.rank_candidates, assign_ranks_map_rank, assign_ranks_length]

/-- Witness for C6 on two concrete candidates with scores 2 and 1. -/
theorem ranking_monotonic_stable_witness :
    ({ Demo.demoCand1 with rank := 1 } : ScoreAndRank.ScoredCandidate).rank <
      ({ Demo.demoCand2 with rank := 2 } : ScoreAndRank.ScoredCandidate).rank
  ∧ (ScoreAndRank.rank_candidates [Demo.demoCand1, Demo.demoCand2] 10).map
      (fun c => c.rank) =
      List.range' 1 ((ScoreAndRank.rank_candidates [Demo.demoCand1, Demo.demoCand2] 10).length)
  ∧ (ScoreAndRank.pySortByDesc (fun c => c.composite_score)
      [Demo.demoCand1, Demo.demoCand2]).filter (fun c => decide (c.composite_score = 2)) =
      [Demo.demoCand1, Demo.demoCand2].filter (fun c => decide (c.composite_score = 2)) :=
  ranking_monotonic_stable [Demo.demoCand1, Demo.demoCand2] 10 2
    { Demo.demoCand1 with rank := 1 } { Demo.demoCand2 with rank := 2 }
    (by norm_num [ScoreAndRank.rank_candidates, ScoreAndRank.pySortByDesc,
      List.insertionSort, List.orderedInsert, ScoreAndRank.assign_ranks,
      Demo.demoCand1, Demo.demoCand2])
    (by norm_num [ScoreAndRank.rank_candidates, ScoreAndRank.pySortByDesc,
      List.insertionSort, List.orderedInsert, ScoreAndRank.assign_ranks,
      Demo.demoCand1, Demo.demoCand2])
    (by norm_num [Demo.demoCand1, Demo.demoCand2])

/-- C4 counterexample: `areaLow` (unrounded composite 52.48) and `areaHigh`
(unrounded composite 52.515) both round to 52.5; the engine sorts by the
stored rounded value, so the stable sort keeps input order and ranks the
unrounded-lower `areaLow` first, contradicting ordering by the unrounded
composite. -/
theorem rounded_sort_key_counterexample :
    (ScoreAndRank.score_and_rank "student" Demo.noPrefs
        [("A", Demo.areaLow), ("B", Demo.areaHigh)] 10).map
      (fun r => r.recommendations.map fun c => (c.area_code, c.rank)) =
      Except.ok [("A", 1), ("B", 2)]
  ∧ (ScoreAndRank.calculate_composite_score
        (ScoreAndRank.calculate_factor_scores Demo.areaLow)
        ScoreAndRank.studentWeights).1 <
      (ScoreAndRank.calculate_composite_score
        (ScoreAndRank.calculate_factor_scores Demo.areaHigh)
        ScoreAndRank.studentWeights).1 := by
  have a1 : (ScoreAndRank.calculate_factor_scores Demo.areaLow).lookup
      Factor.affordability = some (1428/10) := rfl
  have a2 : (ScoreAndRank.calculate_factor_scores Demo.areaLow).lookup
      Factor.investment_quality = some 50 := rfl
  have a3 : (ScoreAndRank.calculate_factor_scores Demo.areaLow).lookup
      Factor.demand_index = some 50 := rfl
  have a4 : (ScoreAndRank.calculate_factor_scores Demo.areaLow).lookup
      Factor.risk_score = some 50 := rfl
  have a5 : (ScoreAndRank.calculate_factor_scores Demo.areaLow).lookup
      Factor.commute = none := rfl
  have a6 : (ScoreAndRank.calculate_factor_scores Demo.areaLow).lookup
      Factor.safety = none := rfl
  have a7 : (ScoreAndRank.calculate_factor_scores Demo.areaLow).lookup
      Factor.schools = none := rfl
  have a8 : (ScoreAndRank.calculate_factor_scores Demo.areaLow).lookup
      Factor.amenities = none := rfl
  have a9 : (ScoreAndRank.calculate_factor_scores Demo.areaLow).lookup
      Factor.infrastructure = none := rfl
  have a10 : (ScoreAndRank.calculate_factor_scores Demo.areaLow).lookup
      Factor.investment = none := rfl
  have b1 : (ScoreAndRank.calculate_factor_scores Demo.areaHigh).lookup
      Factor.affordability = some (1429/10) := rfl
  have b2 : (ScoreAndRank.calculate_factor_scores Demo.areaHigh).lookup
      Factor.investment_quality = some 50 := rfl
  have b3 : (ScoreAndRank.calculate_factor_scores Demo.areaHigh).lookup
      Factor.demand_index = some 50 := rfl
  have b4 : (ScoreAndRank.calculate_factor_scores Demo.areaHigh).lookup
      Factor.risk_score = some 50 := rfl
  have b5 : (ScoreAndRank.calculate_factor_scores Demo.areaHigh).lookup
      Factor.commute = none := rfl
  have b6 : (ScoreAndRank.calculate_factor_scores Demo.areaHigh).lookup
      Factor.safety = none := rfl
  have b7 : (ScoreAndRank.calculate_factor_scores Demo.areaHigh).lookup
      Factor.schools = none := rfl
  have b8 : (ScoreAndRank.calculate_factor_scores Demo.areaHigh).lookup
      Factor.amenities = none := rfl
  have b9 : (ScoreAndRank.calculate_factor_scores Demo.areaHigh).lookup
      Factor.infrastructure = none := rfl
  have b10 : (ScoreAndRank.calculate_factor_scores Demo.areaHigh).lookup
      Factor.investment = none := rfl
  have hcompA : (ScoreAndRank.calculate_composite_score
      (ScoreAndRank.calculate_factor_scores Demo.areaLow)
      ScoreAndRank.studentWeights).1 = 5248/100 := by
    norm_num [ScoreAndRank.calculate_composite_score, Factor.all,
      ScoreAndRank.studentWeights, a1, a2, a3, a4, a5, a6, a7, a8, a9, a10]
  have hcompB : (ScoreAndRank.calculate_composite_score
      (ScoreAndRank.calculate_factor_scores Demo.areaHigh)
      ScoreAndRank.studentWeights).1 = 52515/1000 := by
    norm_num [ScoreAndRank.calculate_composite_score, Factor.all,
      ScoreAndRank.studentWeights, b1, b2, b3, b4, b5, b6, b7, b8, b9, b10]
  have hmcA : (ScoreAndRank.make_candidate "A" Demo.areaLow
      ScoreAndRank.studentWeights).composite_score = 525/10 := by
    show round1 (ScoreAndRank.calculate_composite_score
      (ScoreAndRank.calculate_factor_scores Demo.areaLow)
      ScoreAndRank.studentWeights).1 = 525/10
    rw [hcompA]
    norm_num [round1, roundHalfEven]
  have hmcB : (ScoreAndRank.make_candidate "B" Demo.areaHigh
      ScoreAndRank.studentWeights).composite_score = 525/10 := by
    show round1 (ScoreAndRank.calculate_composite_score
      (ScoreAndRank.calculate_factor_scores Demo.areaHigh)
      ScoreAndRank.studentWeights).1 = 525/10
    rw [hcompB]
    norm_num [round1, roundHalfEven]
  have hsort : ScoreAndRank.pySortByDesc (fun c => c.composite_score)
      [ScoreAndRank.make_candidate "A" Demo.areaLow ScoreAndRank.studentWeights,
       ScoreAndRank.make_candidate "B" Demo.areaHigh ScoreAndRank.studentWeights] =
      [ScoreAndRank.make_candidate "A" Demo.areaLow ScoreAndRank.studentWeights,
       ScoreAndRank.make_candidate "B" Demo.areaHigh ScoreAndRank.studentWeights] := by
    norm_num [ScoreAndRank.pySortByDesc, List.insertionSort, List.orderedInsert,
      hmcA, hmcB]
  have pA : (ScoreAndRank.make_candidate "A" Demo.areaLow
      ScoreAndRank.studentWeights).area_code = "A" := rfl
  have pB : (ScoreAndRank.make_candidate "B" Demo.areaHigh
      ScoreAndRank.studentWeights).area_code = "B" := rfl
  have hpa : ScoreAndRank.passes_constraints Demo.areaLow Demo.noPrefs = true := rfl
  have hpb : ScoreAndRank.passes_constraints Demo.areaHigh Demo.noPrefs = true := rfl
  constructor
  · simp only [ScoreAndRank.score_and_rank, ScoreAndRank.PERSONA_WEIGHTS]
    have hie : Demo.noPrefs.importance_weights = [] := rfl
    norm_num [ScoreAndRank.calculate_adjusted_weights, hie,
      ScoreAndRank.build_scored, hpa, hpb, ScoreAndRank.rank_candidates, hsort,
      ScoreAndRank.assign_ranks, Except.map, pA, pB]
  · rw [hcompA, hcompB]
    norm_num

/-- C4 amended: the engine sorts the candidates by the STORED composite score,
which is the one-decimal ROUNDED composite — rounding does feed the sort key.
Every recommendation's `composite_score` field equals the rounded raw
composite of its own area under the resolved weights, and the output is
ordered by that rounded field. -/
theorem ranking_sorts_by_rounded_composite (persona : String)
    (prefs : ScoreAndRank.UserPreferences)
    (data : List (String × ScoreAndRank.AreaRecord)) (top_n : ℕ)
    (res : ScoreAndRank.ScoreResult)
    (hok : ScoreAndRank.score_and_rank persona prefs data top_n = .ok res) :
    res.recommendations.Pairwise (fun a b => b.composite_score ≤ a.composite_score)
  ∧ ∀ c ∈ res.recommendations,
      c.composite_score = round1 (ScoreAndRank.calculate_composite_score
        (ScoreAndRank.calculate_factor_scores c.raw_data) res.adjusted_weights).1 := by
  cases hw : ScoreAndRank.PERSONA_WEIGHTS persona with
  | none => simp [ScoreAndRank.score_and_rank, hw] at hok
  | some base =>
    simp only [ScoreAndRank.score_and_rank, hw, Except.ok.injEq] at hok
    subst hok
    constructor
    · have hs := List.Pairwise.sublist (List.take_sublist top_n _)
        (pySortByDesc_sorted (fun c => c.composite_score)
          (ScoreAndRank.build_scored prefs
            (ScoreAndRank.calculate_adjusted_weights base prefs.importance_weights) data).1)
      have hP := assign_ranks_pairwise (fun x y => y ≤ x) hs 1
      exact List.Pairwise.imp (fun h => h.2) hP
    · intro c hc
      have hc' : c ∈ ScoreAndRank.assign_ranks 1
          ((ScoreAndRank.pySortByDesc (fun c => c.composite_score)
            (ScoreAndRank.build_scored prefs
              (ScoreAndRank.calculate_adjusted_weights base prefs.importance_weights)
              data).1).take top_n) := hc
      obtain ⟨-, a, hmem, heq⟩ := mem_assign_ranks hc'
      have hmem2 := List.mem_of_mem_take hmem
      have hmem3 : a ∈ (ScoreAndRank.build_scored prefs
          (ScoreAndRank.calculate_adjusted_weights base prefs.importance_weights)
          data).1 := by
        simpa [ScoreAndRank.pySortByDesc] using hmem2
      rw [(build_scored_eq prefs _ data).1] at hmem3
      obtain ⟨p, -, hpa⟩ := List.mem_map.mp hmem3
      rw [heq, ← hpa]
      rfl

/-- Witness for the amended C4 on the two-empty-area run recorded in
`Demo.resAB`. -/
theorem ranking_sorts_by_rounded_composite_witness :
    Demo.resAB.recommendations.Pairwise
      (fun a b => b.composite_score ≤ a.composite_score)
  ∧ Demo.recA.composite_score = round1 (ScoreAndRank.calculate_composite_score
      (ScoreAndRank.calculate_factor_scores Demo.recA.raw_data)
      Demo.resAB.adjusted_weights).1 := by
  have h := ranking_sorts_by_rounded_composite "student" Demo.noPrefs
    [("A", Demo.emptyArea), ("B", Demo.emptyArea)] 5 Demo.resAB rfl
  refine ⟨h.1, h.2 Demo.recA ?_⟩
  show Demo.recA ∈ Demo.resAB.recommendations
  have e1 : (ScoreAndRank.make_candidate "B" Demo.emptyArea
        ScoreAndRank.studentWeights).composite_score =
      (ScoreAndRank.make_candidate "A" Demo.emptyArea
        ScoreAndRank.studentWeights).composite_score := rfl
  simp [Demo.resAB, Demo.recA, ScoreAndRank.rank_candidates, ScoreAndRank.pySortByDesc,
    List.insertionSort, List.orderedInsert, ScoreAndRank.assign_ranks, e1]

/-- C5 counterexample: with `top_n = 1` and two areas passing all constraints,
the returned recommendation count plus the filtered-out count is 1, not the
input length 2 — truncation to `top_n` breaks the claimed identity. -/
theorem truncation_breaks_count_counterexample :
    (ScoreAndRank.score_and_rank "student" Demo.noPrefs
        [("A", Demo.emptyArea), ("B", Demo.emptyArea)] 1).map
      (fun r => (r.recommendations.length, r.filtered_out_count)) = Except.ok (1, 0)
  ∧ ([("A", Demo.emptyArea), ("B", Demo.emptyArea)] :
      List (String × ScoreAndRank.AreaRecord)).length = 2
  ∧ 1 + 0 ≠ 2 := by
  refine ⟨?_, rfl, by norm_num⟩
  have hp : ScoreAndRank.passes_constraints Demo.emptyArea Demo.noPrefs = true := rfl
  have hie : Demo.noPrefs.importance_weights = [] := rfl
  have e1 : (ScoreAndRank.make_candidate "B" Demo.emptyArea
        ScoreAndRank.studentWeights).composite_score =
      (ScoreAndRank.make_candidate "A" Demo.emptyArea
        ScoreAndRank.studentWeights).composite_score := rfl
  simp only [ScoreAndRank.score_and_rank, ScoreAndRank.PERSONA_WEIGHTS]
  norm_num [hie, ScoreAndRank.calculate_adjusted_weights, ScoreAndRank.build_scored, hp,
    ScoreAndRank.rank_candidates, ScoreAndRank.pySortByDesc, List.insertionSort,
    List.orderedInsert, e1, ScoreAndRank.assign_ranks, Except.map]

/-- C5 amended: the scored candidates plus the filtered-out records partition
the input exactly and the reason sample holds at most 5 entries, but the
returned recommendations are truncated to `top_n`; the claimed identity
`len(recommendations) + filtered_out_count = len(input)` holds exactly when
at most `top_n` areas pass the constraints. -/
theorem filtering_partitions_input (persona : String)
    (prefs : ScoreAndRank.UserPreferences)
    (data : List (String × ScoreAndRank.AreaRecord)) (top_n : ℕ)
    (res : ScoreAndRank.ScoreResult)
    (hok : ScoreAndRank.score_and_rank persona prefs data top_n = .ok res) :
    (data.filter fun p => ScoreAndRank.passes_constraints p.2 prefs).length
        + res.filtered_out_count = data.length
  ∧ res.recommendations.length =
      min top_n (data.filter fun p => ScoreAndRank.passes_constraints p.2 prefs).length
  ∧ res.filtered_out_reasons.length ≤ 5
  ∧ ((data.filter fun p => ScoreAndRank.passes_constraints p.2 prefs).length ≤ top_n →
      res.recommendations.length + res.filtered_out_count = data.length) := by
  cases hw : ScoreAndRank.PERSONA_WEIGHTS persona with
  | none => simp [ScoreAndRank.score_and_rank, hw] at hok
  | some base =>
    simp only [ScoreAndRank.score_and_rank, hw, Except.ok.injEq] at hok
    subst hok
    have h1 := (build_scored_eq prefs
      (ScoreAndRank.calculate_adjusted_weights base prefs.importance_weights) data).1
    have h2 := (build_scored_eq prefs
      (ScoreAndRank.calculate_adjusted_weights base prefs.importance_weights) data).2
    have hsplit := length_filter_bool_split
      (fun p => ScoreAndRank.passes_constraints p.2 prefs) data
    have hcount : (ScoreAndRank.build_scored prefs
        (ScoreAndRank.calculate_adjusted_weights base prefs.importance_weights)
        data).2.length =
        (data.filter fun p => !ScoreAndRank.passes_constraints p.2 prefs).length := by
      rw [h2, List.length_map]
    have hsc : (ScoreAndRank.build_scored prefs
        (ScoreAndRank.calculate_adjusted_weights base prefs.importance_weights)
        data).1.length =
        (data.filter fun p => ScoreAndRank.passes_constraints p.2 prefs).length := by
      rw [h1, List.length_map]
    refine ⟨?_, ?_, ?_, ?_⟩
    · show (data.filter fun p => ScoreAndRank.passes_constraints p.2 prefs).length
        + (ScoreAndRank.build_scored prefs
            (ScoreAndRank.calculate_adjusted_weights base prefs.importance_weights)
            data).2.length = data.length
      rw [hcount]
      exact hsplit
    · show (ScoreAndRank.rank_candidates (ScoreAndRank.build_scored prefs
          (ScoreAndRank.calculate_adjusted_weights base prefs.importance_weights)
          data).1 top_n).length = _
      rw [rank_candidates_length, hsc]
    · show ((ScoreAndRank.build_scored prefs
          (ScoreAndRank.calculate_adjusted_weights base prefs.importance_weights)
          data).2.take 5).length ≤ 5
      simp [List.length_take]
    · intro hle
      show (ScoreAndRank.rank_candidates (ScoreAndRank.build_scored prefs
          (ScoreAndRank.calculate_adjusted_weights base prefs.importance_weights)
          data).1 top_n).length
        + (ScoreAndRank.build_scored prefs
            (ScoreAndRank.calculate_adjusted_weights base prefs.importance_weights)
            data).2.length = data.length
      rw [rank_candidates_length, hsc, hcount, min_eq_right hle]
      exact hsplit

/-- Witness for the amended C5: two unconstrained areas with `top_n = 5` —
nothing is truncated and the counts add up to the input length. -/
theorem filtering_partitions_input_witness :
    (([("A", Demo.emptyArea), ("B", Demo.emptyArea)] :
        List (String × ScoreAndRank.AreaRecord)).filter
        (fun p => ScoreAndRank.passes_constraints p.2 Demo.noPrefs)).length
      + Demo.resAB.filtered_out_count =
      ([("A", Demo.emptyArea), ("B", Demo.emptyArea)] :
        List (String × ScoreAndRank.AreaRecord)).length
  ∧ Demo.resAB.filtered_out_reasons.length ≤ 5
  ∧ Demo.resAB.recommendations.length + Demo.resAB.filtered_out_count =
      ([("A", Demo.emptyArea), ("B", Demo.emptyArea)] :
        List (String × ScoreAndRank.AreaRecord)).length := by
  have h := filtering_partitions_input "student" Demo.noPrefs
    [("A", Demo.emptyArea), ("B", Demo.emptyArea)] 5 Demo.resAB rfl
  have hp : ScoreAndRank.passes_constraints Demo.emptyArea Demo.noPrefs = true := rfl
  exact ⟨h.1, h.2.2.1, h.2.2.2 (by norm_num [List.filter_cons, hp])⟩

/-- C9 counterexample: `score_areas.calculate_composite_score` does NOT fail
on the unknown persona `"alien"` — it silently applies the student weight
profile and produces a composite of 50 for an empty area. -/
theorem score_areas_persona_fallback_counterexample :
    (ScoreAreas.calculate_composite_score Demo.emptyArea "alien" []).weights_applied
      = ScoreAreas.studentWeights
  ∧ (ScoreAreas.calculate_composite_score Demo.emptyArea "alien" []).composite_score
      = 50 := by
  constructor
  · rfl
  · show round1 ((Factor.all.map fun f =>
      match ScoreAreas.studentWeights f, ScoreAreas.factor_scores Demo.emptyArea f with
      | some w, some s => s * w
      | _, _ => 0).sum) = 50
    norm_num [Factor.all, ScoreAreas.studentWeights, ScoreAreas.factor_scores,
      Demo.emptyArea, round1, roundHalfEven]

/-- C9 amended: `score_and_rank` rejects an unknown persona with a
`ValueError` and scores nothing, but `score_areas.calculate_composite_score`
silently substitutes the student profile and proceeds. -/
theorem unknown_persona_error (p : String) (prefs : ScoreAndRank.UserPreferences)
    (data : List (String × ScoreAndRank.AreaRecord)) (top_n : ℕ)
    (d : ScoreAndRank.AreaRecord) (uw : List (Factor × ℚ))
    (h1 : ScoreAndRank.PERSONA_WEIGHTS p = none)
    (h2 : ScoreAreas.PERSONA_WEIGHTS p = none) :
    ScoreAndRank.score_and_rank p prefs data top_n =
      .error ("Invalid persona: " ++ p)
  ∧ ScoreAreas.calculate_composite_score d p uw =
      ScoreAreas.calculate_composite_score d "student" uw := by
  constructor
  · simp [ScoreAndRank.score_and_rank, h1]
  · have hs : ScoreAreas.PERSONA_WEIGHTS "student" =
        some ScoreAreas.studentWeights := rfl
    simp [ScoreAreas.calculate_composite_score, h2, hs]

/-- Witness for the amended C9 at the persona name `"alien"`. -/
theorem unknown_persona_error_witness :
    ScoreAndRank.score_and_rank "alien" Demo.noPrefs [] 10 =
      .error ("Invalid persona: " ++ "alien")
  ∧ ScoreAreas.calculate_composite_score Demo.emptyArea "alien" [] =
      ScoreAreas.calculate_composite_score Demo.emptyArea "student" [] :=
  unknown_persona_error "alien" Demo.noPrefs [] 10 Demo.emptyArea []
    (by simp [ScoreAndRank.PERSONA_WEIGHTS])
    (by simp [ScoreAreas.PERSONA_WEIGHTS])
